import Mathlib

/-!
Verification development for the leaflet map module
(src/rpgm_modules/leaflet/main.js).

The JavaScript source is shallowly embedded below. JSON-like JavaScript
values are modelled by `JsVal`; map sessions (`class LeafletMap`) and the
process-wide registry (`const LeafletMapManager`) are modelled as explicit
state structures with pure transition functions; outbound
`RPGM.sendMessage` calls are collected in `OutMsg` lists; JavaScript
exceptions surface as `JsErr` values. External collaborators (the Leaflet
widget `L`, the RPGM transport) are modelled only at their interface
boundary: widget layers and markers appear as explicit collections, and
the asynchronous debounce timer is modelled by an absolute-deadline field
driven by an explicit event timeline.
-/

/-- A JSON-like JavaScript value, as carried in message payloads. -/
inductive JsVal where
  | undefined : JsVal
  | jsNull : JsVal
  | num : Int → JsVal
  | str : String → JsVal
  | arr : List JsVal → JsVal
  | obj : List (String × JsVal) → JsVal

/-- The JavaScript typeof operator restricted to the values we model. -/
def JsVal.typeOf : JsVal → String
  | .undefined => "undefined"
  | .jsNull => "object"
  | .num _ => "number"
  | .str _ => "string"
  | .arr _ => "object"
  | .obj _ => "object"

/-- Whether Array.isArray holds of the value. -/
def JsVal.isArr : JsVal → Bool
  | .arr _ => true
  | _ => false

/-- JavaScript element access v[i]. Throws (returns error) on undefined
and null; yields undefined on out-of-range indices and on non-indexable
values. -/
def JsVal.index : JsVal → Nat → Except Unit JsVal
  | .undefined, _ => .error ()
  | .jsNull, _ => .error ()
  | .arr xs, i => .ok (xs.getD i .undefined)
  | .str s, i => .ok (if i < s.length then .str ((s.drop i).take 1) else .undefined)
  | .num _, _ => .ok .undefined
  | .obj _, _ => .ok .undefined

/-- JavaScript property access v.k. Throws on undefined and null; yields
undefined for a missing field or a non-object. -/
def JsVal.field : JsVal → String → Except Unit JsVal
  | .undefined, _ => .error ()
  | .jsNull, _ => .error ()
  | .obj fs, k =>
      .ok (match fs.find? (fun p => p.1 == k) with
           | some p => p.2
           | none => .undefined)
  | _, _ => .ok .undefined

/-- The JavaScript in operator, k in v. Throws a TypeError on anything
that is not an object; on our object values it tests field presence. -/
def JsVal.hasField : JsVal → String → Except Unit Bool
  | .obj fs, k => .ok (fs.any (fun p => p.1 == k))
  | .arr _, _ => .ok false
  | _, _ => .error ()

/-- A JavaScript runtime error observable by our model. -/
inductive JsErr where
  | typeError : JsErr
  | widgetError : JsErr

/-- The result of L.latLng(a, b): the two values as passed. The Leaflet
widget is an external collaborator; we model its constructor at the
interface boundary as a pair. -/
structure LatLng where
  lat : JsVal
  lng : JsVal

/-- Outcome of jsonToLatLng: whether RPGM.newJavascriptError was called,
and the returned value (none when a JavaScript error aborted the call). -/
structure ConvResult where
  errorReported : Bool
  result : Option LatLng

/-- The validity guard of jsonToLatLng, evaluated with JavaScript
short-circuiting: typeof obj is not object, or lat / lng missing, or lat
/ lng not numbers. Returns an error when evaluating the guard itself
throws (the in operator on null). -/
def jsonToLatLngGuard (obj : JsVal) : Except Unit Bool :=
  if obj.typeOf != "object" then .ok true
  else do
    let hasLat ← obj.hasField "lat"
    if !hasLat then pure true
    else do
      let hasLng ← obj.hasField "lng"
      if !hasLng then pure true
      else do
        let la ← obj.field "lat"
        if la.typeOf != "number" then pure true
        else do
          let ln ← obj.field "lng"
          pure (ln.typeOf != "number")

/-- Embedding of jsonToLatLng (main.js lines 5-10). When the guard holds
the source calls RPGM.newJavascriptError and then FALLS THROUGH to the
return statement: there is no return or throw after the report, so the
function still returns L.latLng(obj.lat, obj.lng) built from the
malformed fields. -/
def jsonToLatLng (obj : JsVal) : ConvResult :=
  match jsonToLatLngGuard obj with
  | .error _ => ⟨false, none⟩
  | .ok bad =>
      match obj.field "lat", obj.field "lng" with
      | .ok la, .ok ln => ⟨bad, some ⟨la, ln⟩⟩
      | _, _ => ⟨bad, none⟩

/-- A snapshot of the map widget viewport, as read by sendChange. -/
structure Viewport where
  northLat : Int
  eastLng : Int
  southLat : Int
  westLng : Int
  zoomLevel : Int
deriving DecidableEq, Repr

/-- Outbound messages sent with RPGM.sendMessage. -/
inductive OutMsg where
  | onDidEnterStep : Int → OutMsg
  | onDidLoad : Int → OutMsg
  | onDidChangeView : Int → Int → Int → Int → Int → Int → OutMsg
  | onDidClickMap : Int → Int → Int → OutMsg
  | onDidClickZone : Int → String → OutMsg
deriving DecidableEq, Repr

/-- The wire tag each outbound message is sent under. Note the source
sends onDidClickZone without the leaflet/ prefix used everywhere else. -/
def OutMsg.tag : OutMsg → String
  | .onDidEnterStep _ => "leaflet/onDidEnterStep"
  | .onDidLoad _ => "leaflet/onDidLoad"
  | .onDidChangeView _ _ _ _ _ _ => "leaflet/onDidChangeView"
  | .onDidClickMap _ _ _ => "leaflet/onDidClickMap"
  | .onDidClickZone _ _ => "onDidClickZone"

/-- JavaScript truthiness of the values we model (NaN and booleans do
not occur in them). -/
def JsVal.truthy : JsVal → Bool
  | .undefined => false
  | .jsNull => false
  | .num k => k != 0
  | .str s => s != ""
  | .arr _ => true
  | .obj _ => true

/-- The result of L.icon(options): an icon object. Its own id property is
never set by L.icon, hence id is undefined. -/
structure LIcon where
  id : JsVal
  options : JsVal

/-- L.icon(options). -/
def LIcon.create (options : JsVal) : LIcon := ⟨JsVal.undefined, options⟩

/-- One queued zone, as pushed by addGeoJSON: {points, id, tooltip, color}. -/
structure ZoneFeature where
  points : JsVal
  id : Int
  tooltip : String
  color : String

/-- The properties object of an emitted GeoJSON feature. -/
structure FeatureProps where
  id : String
  color : String
  tooltip : String
deriving DecidableEq, Repr

/-- An emitted GeoJSON feature. -/
structure GeoFeature where
  props : FeatureProps
  geometryType : String
  coordinates : JsVal

/-- The shape classification of drawGeoJSON (main.js lines 220-226):
isMultiple = Array.isArray(e.points[0][0]), with the indexing wrapped in
try/catch defaulting to false. -/
def isMultiple (points : JsVal) : Bool :=
  match points.index 0 with
  | .error _ => false
  | .ok p0 =>
      match p0.index 0 with
      | .error _ => false
      | .ok p00 => p00.isArr

/-- MultiPolygon coordinates: e.points.map(p => [p]). Only reached when
isMultiple holds, which forces points to be an array. -/
def mapRings : JsVal → JsVal
  | .arr ps => .arr (ps.map (fun p => .arr [p]))
  | v => v

/-- One feature of the collection built by drawGeoJSON (main.js lines
228-240): properties {id: template string of e.id, color, tooltip} and a
Polygon or MultiPolygon geometry chosen by isMultiple. -/
def LeafletMap.mkFeature (e : ZoneFeature) : GeoFeature :=
  let mult := isMultiple e.points
  ⟨⟨toString e.id, e.color, e.tooltip⟩,
   if mult then "MultiPolygon" else "Polygon",
   if mult then mapRings e.points else .arr [e.points]⟩

/-- The visual style of a rendered feature layer; absent fields are ones
the style object did not set. -/
structure LayerStyle where
  weight : Option Nat
  color : Option String
  dashArray : Option JsVal
  fillColor : Option String
  opacity : Option Rat
  fillOpacity : Option Rat

/-- The style callback passed to L.geoJson (main.js lines 246-254). -/
def geoStyle (props : FeatureProps) : LayerStyle :=
  ⟨none, some "white", some (JsVal.num 3), some props.color,
   some 1, some (mkRat 6 10)⟩

/-- A rendered interactive feature layer: its feature properties, its
current style, and whether bringToFront has been called on it. -/
structure FeatureLayerView where
  props : FeatureProps
  style : LayerStyle
  inFront : Bool

/-- How L.geoJson renders one feature: default style from the style
callback, with mouseover / mouseout / click wired to highlightFeature,
resetHighlight and zoomToFeature by onEachFeature. -/
def renderFeature (f : GeoFeature) : FeatureLayerView :=
  ⟨f.props, geoStyle f.props, false⟩

/-- One marker input entry of a markers/update payload. -/
structure MarkerInput where
  lat : Int
  lng : Int
  label : String
  icon : Int

/-- A constructed L.marker: a fresh widget object (identified by tok),
its position, its bound popup label, and the icon option it was created
with. -/
structure Marker where
  tok : Nat
  lat : Int
  lng : Int
  label : String
  icon : Option LIcon

/-- The markers created by the forEach loop of updateMarkers, with fresh
widget identities starting at counter c. -/
def mkMarkers (icon : Option LIcon) (c : Nat) : List MarkerInput → List Marker
  | [] => []
  | m :: rest => ⟨c, m.lat, m.lng, m.label, icon⟩ :: mkMarkers icon (c + 1) rest

/-- m.remove(): the marker removes itself (its widget identity) from the
collection of markers rendered on the map. -/
def removeMarker (rendered : List Marker) (m : Marker) : List Marker :=
  rendered.filter (fun x => x.tok != m.tok)

/-- The state of one map session (class LeafletMap). Widget-side
collections (rendered layers, rendered markers, the live viewport) model
the external Leaflet map at its interface boundary. The field _markerIcon
models the this._markerIcon property read by updateMarkers: no statement
in the source ever assigns it, so it is permanently undefined (none).
The _debouncer field holds the absolute deadline of the pending
setTimeout, if any. The constructor (main.js lines 113-177) additionally
converts options.center with jsonToLatLng when present, builds the
widget, the info control (stored in this._tooltip), the legend control,
and emits onDidLoad asynchronously from whenReady. -/
structure LeafletMap where
  _id : Int
  _queueGeoJSON : List ZoneFeature
  _lastGeoJSON : Option Nat
  _markers : List Marker
  _debouncer : Option Nat
  _legendDiv : String
  _markerIcon : Option LIcon
  viewport : Viewport
  renderedLayers : List (Nat × List GeoFeature)
  layerCounter : Nat
  renderedMarkers : List Marker
  _markerCounter : Nat
  tooltipPanel : Option FeatureProps

/-- A freshly constructed session for a given map id; vp is the initial
viewport of the external widget. -/
def LeafletMap.new (id : Int) (vp : Viewport) : LeafletMap :=
  ⟨id, [], none, [], none, "Légende", none, vp, [], 0, [], 0, none⟩

def LeafletMap.getId (s : LeafletMap) : Int := s._id

/-- onMapViewChange at absolute time now: clearTimeout of any pending
timer, then setTimeout(this.sendChange, 200). -/
def LeafletMap.onMapViewChange (s : LeafletMap) (now : Nat) : LeafletMap :=
  { s with _debouncer := some (now + 200) }

/-- sendChange: read the widget bounds and zoom and emit
leaflet/onDidChangeView. -/
def LeafletMap.sendChange (s : LeafletMap) : OutMsg :=
  .onDidChangeView s._id s.viewport.northLat s.viewport.eastLng
    s.viewport.southLat s.viewport.westLng s.viewport.zoomLevel

/-- addGeoJSON(id, points, tooltip, color): push one ZoneFeature. -/
def LeafletMap.addGeoJSON (s : LeafletMap) (id : Int) (points : JsVal)
    (tooltip color : String) : LeafletMap :=
  { s with _queueGeoJSON := s._queueGeoJSON ++ [⟨points, id, tooltip, color⟩] }

/-- drawGeoJSON (main.js lines 212-264): remove the previous layer if
present, build one feature collection from the whole queue in insertion
order, clear the queue, then render (L.geoJson(...).addTo) the new
collection and remember it as the current layer. Rendering is an external
widget call that may throw on malformed geometry; renderOk says whether
it succeeds. The queue is cleared before the rendering call, so it is
empty even when rendering fails; on failure _lastGeoJSON keeps the stale
handle of the already-removed previous layer. -/
def LeafletMap.drawGeoJSON (s : LeafletMap) (renderOk : Bool) :
    LeafletMap × Option JsErr :=
  let s1 :=
    match s._lastGeoJSON with
    | some h => { s with renderedLayers := s.renderedLayers.filter (fun p => p.1 != h) }
    | none => s
  let finalGeo := s1._queueGeoJSON.map LeafletMap.mkFeature
  let s2 := { s1 with _queueGeoJSON := [] }
  if renderOk then
    ({ s2 with
        renderedLayers := s2.renderedLayers ++ [(s2.layerCounter, finalGeo)],
        _lastGeoJSON := some s2.layerCounter,
        layerCounter := s2.layerCounter + 1 }, none)
  else
    (s2, some JsErr.widgetError)

/-- highlightFeature (main.js lines 266-276): merge the emphasis style
into the layer and bring it to front; then the source evaluates
this._mapInfo.update(layer.feature.properties), but no statement in the
source ever assigns this._mapInfo (the info control was stored in
this._tooltip), so the property is undefined and the call throws a
TypeError. The session tooltip panel is left untouched. -/
def LeafletMap.highlightFeature (s : LeafletMap) (layer : FeatureLayerView) :
    LeafletMap × FeatureLayerView × Option JsErr :=
  let l2 : FeatureLayerView :=
    { layer with
        style := { layer.style with
                     weight := some 5, color := some "#666",
                     dashArray := some (JsVal.str ""),
                     fillOpacity := some (mkRat 7 10) },
        inFront := true }
  (s, l2, some JsErr.typeError)

/-- resetHighlight (main.js lines 278-281): this._lastGeoJSON.resetStyle
re-applies the style callback (throwing instead if there is no current
layer); then this._mapInfo.update() throws a TypeError exactly as in
highlightFeature, so the tooltip panel is never cleared here either. -/
def LeafletMap.resetHighlight (s : LeafletMap) (layer : FeatureLayerView) :
    LeafletMap × FeatureLayerView × Option JsErr :=
  match s._lastGeoJSON with
  | none => (s, layer, some JsErr.typeError)
  | some _ =>
      (s, { layer with style := geoStyle layer.props }, some JsErr.typeError)

/-- zoomToFeature (main.js lines 283-288): emit onDidClickZone with
{id: this._id, zoneId: e.target.feature.properties.id}. -/
def LeafletMap.zoomToFeature (s : LeafletMap) (layer : FeatureLayerView) : OutMsg :=
  .onDidClickZone s._id layer.props.id

/-- updateLegend(content): set the legend div content verbatim. -/
def LeafletMap.updateLegend (s : LeafletMap) (content : String) : LeafletMap :=
  { s with _legendDiv := content }

/-- updateMarkers (main.js lines 294-306): every current marker removes
itself from the map, the marker array is reset, then one L.marker per
input entry is created with {icon: this._markerIcon}, bound to its label
popup, added to the map and pushed. Neither the icon registry nor the
entry icon id is consulted. -/
def LeafletMap.updateMarkers (s : LeafletMap) (markers : List MarkerInput) :
    LeafletMap :=
  let rendered := s._markers.foldl removeMarker s.renderedMarkers
  let news := mkMarkers s._markerIcon s._markerCounter markers
  { s with
      _markers := news,
      renderedMarkers := rendered ++ news,
      _markerCounter := s._markerCounter + markers.length }

/-- loadingShow has an empty body (main.js lines 308-310). -/
def LeafletMap.loadingShow (s : LeafletMap) : LeafletMap := s

/-- loadingHide has an empty body (main.js lines 312-314). -/
def LeafletMap.loadingHide (s : LeafletMap) : LeafletMap := s

/-- One view-change trigger on the event timeline: at absolute time tv.1
the widget viewport settles to tv.2 and moveend or zoomend fires. If a
scheduled sendChange timer is already due, the event loop runs it first
(reading the viewport at that moment); then the trigger runs
onMapViewChange, cancelling any still-pending timer and scheduling a new
one 200 ms ahead. -/
def stepTrigger (s : LeafletMap) (tv : Nat × Viewport) : LeafletMap × List OutMsg :=
  let fired :=
    match s._debouncer with
    | some d =>
        if d ≤ tv.1 then ({ s with _debouncer := none }, [s.sendChange])
        else (s, [])
    | none => (s, [])
  ((LeafletMap.onMapViewChange { fired.1 with viewport := tv.2 } tv.1), fired.2)

/-- Process a timeline of view-change triggers in order, collecting every
onDidChangeView emission. -/
def runTriggers (s : LeafletMap) : List (Nat × Viewport) → LeafletMap × List OutMsg
  | [] => (s, [])
  | tv :: rest =>
      let r1 := stepTrigger s tv
      let r2 := runTriggers r1.1 rest
      (r2.1, r1.2 ++ r2.2)

/-- Let the event loop run up to absolute time now with no further
triggers: a due pending timer fires once. -/
def settleAt (s : LeafletMap) (now : Nat) : LeafletMap × List OutMsg :=
  match s._debouncer with
  | some d =>
      if d ≤ now then ({ s with _debouncer := none }, [s.sendChange])
      else (s, [])
  | none => (s, [])

/-- A full observation: run the triggers, then observe at time t. -/
def viewSequence (s : LeafletMap) (ts : List (Nat × Viewport)) (t : Nat) :
    LeafletMap × List OutMsg :=
  let r := runTriggers s ts
  let r2 := settleAt r.1 t
  (r2.1, r.2 ++ r2.2)

/-- Consecutive triggers are in increasing time order and spaced less
than 200 ms apart. -/
def gapsOk : List (Nat × Viewport) → Bool
  | [] => true
  | [_] => true
  | a :: b :: rest => (decide (a.1 < b.1) && decide (b.1 < a.1 + 200)) && gapsOk (b :: rest)

/-- The data object of an inbound envelope, with every field the handler
ever reads; fields the controller did not send are defaults. -/
structure MsgData where
  mapId : Int
  iconId : Int
  options : JsVal
  layer : String
  height : Int
  layerOptions : JsVal
  center : JsVal
  zoom : Int
  bounds : JsVal
  markers : List MarkerInput
  content : String
  zoneId : Int
  points : JsVal
  tooltip : String
  color : String

/-- A data object with nothing set. -/
def MsgData.empty : MsgData :=
  ⟨0, 0, JsVal.undefined, "", 0, JsVal.undefined, JsVal.undefined, 0, JsVal.undefined, [],
   "", 0, JsVal.undefined, "", ""⟩

/-- The initial viewport of a freshly created widget: external widget
state. The instance the initialize branch creates is dropped, so nothing
observable depends on this value. -/
def widgetStartViewport : Viewport := ⟨0, 0, 0, 0, 0⟩

/-- The LeafletMap constructor (main.js lines 113-177) as invoked by the
initialize branch. It unconditionally evaluates options.options.center
(main.js line 132), which throws a TypeError when the options payload is
undefined or null; when the center value is truthy it is converted with
jsonToLatLng, whose failure is reported to the host while construction
continues (the Bool records whether a report happened). Widget, control
and hook construction and the asynchronous onDidLoad emission are
external effects of the new instance. -/
def LeafletMap.construct (data : MsgData) (vp : Viewport) :
    Except JsErr (Bool × LeafletMap) :=
  match data.options.field "center" with
  | .error _ => .error .typeError
  | .ok center =>
      if center.truthy then
        .ok ((jsonToLatLng center).errorReported, LeafletMap.new data.mapId vp)
      else
        .ok (false, LeafletMap.new data.mapId vp)

/-- The state of the process-wide registry singleton
(const LeafletMapManager, main.js lines 15-106). The _icons field is a
JavaScript array written only by this._icons[data.iconId] = ..., hence
possibly sparse: none marks a hole. -/
structure LeafletMapManager where
  _currentStepCache : Option Int
  _maps : List LeafletMap
  _icons : List (Option LIcon)

/-- The registry as built by its constructor (main.js lines 16-20). -/
def LeafletMapManager.new : LeafletMapManager := ⟨none, [], []⟩

/-- getMap (main.js lines 96-98): this._maps.find(m => m.getId() === mapId). -/
def LeafletMapManager.getMap (mgr : LeafletMapManager) (mapId : Int) :
    Option LeafletMap :=
  mgr._maps.find? (fun m => m.getId == mapId)

/-- Writing arr[i] = v into a JavaScript array: slots below i are kept
(existing holes stay holes), missing slots below i become holes, and
slot i receives the value. -/
def setSparse (xs : List (Option LIcon)) (i : Nat) (v : LIcon) :
    List (Option LIcon) :=
  match xs, i with
  | [], 0 => [some v]
  | [], n + 1 => none :: setSparse [] n v
  | _ :: rest, 0 => some v :: rest
  | x :: rest, n + 1 => x :: setSparse rest n v

/-- this._icons[data.iconId] = L.icon(data.options). A nonnegative
numeric iconId is an array index and produces a sparse array; a negative
one is stored as a plain property that array iteration never visits,
which we model by leaving the indexed part unchanged. -/
def iconsAssign (icons : List (Option LIcon)) (iconId : Int) (icon : LIcon) :
    List (Option LIcon) :=
  if iconId < 0 then icons else setSparse icons iconId.toNat icon

/-- The find loop of getIcon over a possibly sparse array:
Array.prototype.find visits every index up to the length, holes
included; at a hole the element is undefined, so reading m.id throws a
TypeError. At a stored L.icon value the own id property is undefined, so
the strict comparison against a numeric iconId never succeeds. -/
def iconsFind : List (Option LIcon) → Int → Except JsErr (Option LIcon)
  | [], _ => .ok none
  | none :: _, _ => .error .typeError
  | some m :: rest, iconId =>
      match m.id with
      | .num k => if k == iconId then .ok (some m) else iconsFind rest iconId
      | _ => iconsFind rest iconId

/-- getIcon (main.js lines 103-105): this._icons.find(m => m.id === iconId),
with the TypeError the find callback hits at a hole surfaced as an error. -/
def LeafletMapManager.getIcon (mgr : LeafletMapManager) (iconId : Int) :
    Except JsErr (Option LIcon) :=
  iconsFind mgr._icons iconId

/-- In-place mutation of the first session matching mapId (the instance
returned by find is mutated by the handler). -/
def updateFirstMap (maps : List LeafletMap) (mapId : Int)
    (f : LeafletMap → LeafletMap) : List LeafletMap :=
  match maps with
  | [] => []
  | m :: rest =>
      if m._id == mapId then f m :: rest
      else m :: updateFirstMap rest mapId f

/-- The outcome of one didReceiveMessage invocation: the registry state
after it, the outbound messages it sent synchronously, and the JavaScript
error it threw, if any (mutations made before a throw persist). -/
structure DispatchResult where
  state : LeafletMapManager
  out : List OutMsg
  err : Option JsErr

/-- The didEnterStep hook (main.js lines 27-31): cache the step id and
relay it. -/
def LeafletMapManager.didEnterStep (mgr : LeafletMapManager) (stepId : Int) :
    LeafletMapManager × List OutMsg :=
  ({ mgr with _currentStepCache := some stepId }, [OutMsg.onDidEnterStep stepId])

/-- The didReceiveMessage handler (main.js lines 34-90).
Branch notes, traced from the source:
* leaflet/initialize runs the LeafletMap constructor, which may throw
  (see LeafletMap.construct), and binds the instance to a local
  constant; NOTHING pushes it into this._maps (no statement in the source
  ever appends to _maps), so the registry state is unchanged and every
  later lookup of that mapId fails. Widget construction and the
  asynchronous onDidLoad are external effects of the dropped instance.
* leaflet/map/view, leaflet/map/zoom and leaflet/map/fit call
  mapInstance.setView, setZoom and fitBounds, but class LeafletMap
  defines none of these methods (they live on the inner widget
  this._map, not on the wrapper), so each of these dispatches throws a
  TypeError with nothing mutated.
* leaflet/geojson/flush calls mapInstance.flushGeoJSON(); the class
  defines drawGeoJSON and no method named flushGeoJSON, so the property
  is undefined and the call throws a TypeError.
* marker, legend and geojson/add branches delegate to the session
  methods modelled above. -/
def LeafletMapManager.didReceiveMessage (mgr : LeafletMapManager)
    (message : String) (data : MsgData) : DispatchResult :=
  if message = "leaflet/enterStep" ∧ mgr._currentStepCache ≠ none then
    ⟨mgr, [OutMsg.onDidEnterStep (mgr._currentStepCache.getD 0)], none⟩
  else if message = "leaflet/icon/create" then
    ⟨{ mgr with _icons := iconsAssign mgr._icons data.iconId (LIcon.create data.options) },
     [], none⟩
  else if message = "leaflet/initialize" then
    match LeafletMap.construct data widgetStartViewport with
    | .error e => ⟨mgr, [], some e⟩
    | .ok _ => ⟨mgr, [], none⟩
  else
    match LeafletMapManager.getMap mgr data.mapId with
    | none => ⟨mgr, [], none⟩
    | some _ =>
        if message = "leaflet/map/view" then
          ⟨mgr, [], some JsErr.typeError⟩
        else if message = "leaflet/map/zoom" then
          ⟨mgr, [], some JsErr.typeError⟩
        else if message = "leaflet/map/fit" then
          ⟨mgr, [], some JsErr.typeError⟩
        else if message = "leaflet/markers/update" then
          ⟨{ mgr with _maps := updateFirstMap mgr._maps data.mapId (fun m =>
              m.updateMarkers data.markers) }, [], none⟩
        else if message = "leaflet/legend/update" then
          ⟨{ mgr with _maps := updateFirstMap mgr._maps data.mapId (fun m =>
              m.updateLegend data.content) }, [], none⟩
        else if message = "leaflet/geojson/add" then
          ⟨{ mgr with _maps := updateFirstMap mgr._maps data.mapId (fun m =>
              m.addGeoJSON data.zoneId data.points data.tooltip data.color) }, [], none⟩
        else if message = "leaflet/geojson/flush" then
          ⟨mgr, [], some JsErr.typeError⟩
        else if message = "leaflet/loading/show" then
          ⟨{ mgr with _maps := updateFirstMap mgr._maps data.mapId LeafletMap.loadingShow },
           [], none⟩
        else if message = "leaflet/loading/false" then
          ⟨{ mgr with _maps := updateFirstMap mgr._maps data.mapId LeafletMap.loadingHide },
           [], none⟩
        else ⟨mgr, [], none⟩

/-- Every message tag the handler tests for. -/
def knownTags : List String :=
  ["leaflet/enterStep", "leaflet/icon/create", "leaflet/initialize",
   "leaflet/map/view", "leaflet/map/zoom", "leaflet/map/fit",
   "leaflet/markers/update", "leaflet/legend/update", "leaflet/geojson/add",
   "leaflet/geojson/flush", "leaflet/loading/show", "leaflet/loading/false"]

/-- The map-scoped tags: handled only after a successful session lookup. -/
def mapScopedTags : List String :=
  ["leaflet/map/view", "leaflet/map/zoom", "leaflet/map/fit",
   "leaflet/markers/update", "leaflet/legend/update", "leaflet/geojson/add",
   "leaflet/geojson/flush", "leaflet/loading/show", "leaflet/loading/false"]

/-- A concrete initial viewport for examples. -/
def vp0 : Viewport := ⟨1, 2, 3, 4, 5⟩

/-- Concrete viewports reached by successive pan events in examples. -/
def vpA : Viewport := ⟨20, 21, 22, 23, 6⟩

def vpB : Viewport := ⟨30, 31, 32, 33, 7⟩

def vpC : Viewport := ⟨9, 10, 11, 12, 13⟩

/-- A concrete freshly constructed session with id 1. -/
def sessionA : LeafletMap := LeafletMap.new 1 vp0

/-- The flat ring [[0,0],[0,1],[1,1]]: a sequence of coordinate pairs. -/
def flatPts : JsVal :=
  .arr [.arr [.num 0, .num 0], .arr [.num 0, .num 1], .arr [.num 1, .num 1]]

/-- The nested value [[[0,0],[0,1],[1,1]]]: a sequence of rings. -/
def nestedPts : JsVal := .arr [flatPts]

/-- A session that has drawn one zone, so that a current layer exists. -/
def sessionB : LeafletMap :=
  ((sessionA.addGeoJSON 1 flatPts "t" "red").drawGeoJSON true).1

/-- A rendered interactive layer for the zone of sessionB. -/
def layerEx : FeatureLayerView :=
  renderFeature (LeafletMap.mkFeature ⟨flatPts, 1, "t", "red"⟩)

/-- A registry state that hypothetically holds one registered session;
no such state is reachable through messages (see the C1 theorem), but the
dispatch code is a total function of the registry state. -/
def mgrWithMap : LeafletMapManager := ⟨none, [sessionA], []⟩

/-- A payload carrying mapId 1. -/
def d1 : MsgData := { MsgData.empty with mapId := 1 }

/-- An initialize payload carrying mapId 1 and an options object without
a center, so that the constructor completes without throwing. -/
def dInit : MsgData := { MsgData.empty with mapId := 1, options := JsVal.obj [] }

/-- A payload carrying mapId 1 and zoom 5. -/
def d1z : MsgData := { MsgData.empty with mapId := 1, zoom := 5 }

/-- Options for an example icon. -/
def iconOpts : JsVal := .obj [("iconUrl", .str "marker.png")]

/-- A payload installing icon 1. -/
def dIcon : MsgData := { MsgData.empty with iconId := 1, options := iconOpts }

/-- Two example marker entries, the second referencing icon 1. -/
def mi1 : MarkerInput := ⟨10, 20, "first", 0⟩

def mi2 : MarkerInput := ⟨30, 40, "second", 1⟩

/-- Replacing the first matching session with a function that changes
nothing leaves the session list unchanged. -/
theorem updateFirstMap_of_fixed (f : LeafletMap → LeafletMap)
    (hf : ∀ s, f s = s) :
    ∀ (maps : List LeafletMap) (mapId : Int),
      updateFirstMap maps mapId f = maps := by
  intro maps mapId
  induction maps with
  | nil => rfl
  | cons m rest ih =>
      unfold updateFirstMap
      by_cases h : (m._id == mapId) = true
      · rw [if_pos h, hf]
      · rw [if_neg h, ih]

/-- The removal loop of updateMarkers empties the rendered collection as
soon as every rendered marker has its widget identity among the markers
being removed. -/
theorem foldl_removeMarker_nil :
    ∀ (l r : List Marker),
      (∀ x ∈ r, ∃ m ∈ l, m.tok = x.tok) →
      List.foldl removeMarker r l = [] := by
  intro l
  induction l with
  | nil =>
      intro r h
      cases r with
      | nil => rfl
      | cons x xs =>
          obtain ⟨m, hm, -⟩ := h x (by simp)
          exact absurd hm (List.not_mem_nil m)
  | cons m l ih =>
      intro r h
      rw [List.foldl_cons]
      apply ih
      intro x hx
      rw [removeMarker, List.mem_filter] at hx
      obtain ⟨hxr, hne⟩ := hx
      obtain ⟨m2, hm2, htok⟩ := h x hxr
      rcases List.mem_cons.mp hm2 with rfl | hm2l
      · exact absurd htok.symm (by simpa using hne)
      · exact ⟨m2, hm2l, htok⟩

/-- mkMarkers creates exactly one marker per input entry. -/
theorem mkMarkers_length (icon : Option LIcon) :
    ∀ (ms : List MarkerInput) (c : Nat),
      (mkMarkers icon c ms).length = ms.length := by
  intro ms
  induction ms with
  | nil => intro c; rfl
  | cons m rest ih => intro c; simp [mkMarkers, ih]

/-- Every marker created by mkMarkers has a widget identity at or above
the starting counter. -/
theorem mkMarkers_tok_ge (icon : Option LIcon) :
    ∀ (ms : List MarkerInput) (c : Nat) (x : Marker),
      x ∈ mkMarkers icon c ms → c ≤ x.tok := by
  intro ms
  induction ms with
  | nil => intro c x hx; exact absurd hx (List.not_mem_nil x)
  | cons m rest ih =>
      intro c x hx
      rcases List.mem_cons.mp hx with rfl | hx
      · exact Nat.le_refl c
      · exact Nat.le_trans (Nat.le_succ c) (ih (c + 1) x hx)

/-- When the trigger happens strictly before any pending deadline, the
timer does not fire: the step only records the new viewport and
reschedules the timer 200 ms after the trigger. -/
theorem stepTrigger_nofire (s : LeafletMap) (tv : Nat × Viewport)
    (h : ∀ d, s._debouncer = some d → tv.1 < d) :
    stepTrigger s tv =
      ({ s with viewport := tv.2, _debouncer := some (tv.1 + 200) }, []) := by
  unfold stepTrigger
  cases hd : s._debouncer with
  | none => rfl
  | some d =>
      have hlt := h d hd
      have hnle : ¬ d ≤ tv.1 := by omega
      simp only [hnle, if_false]
      rfl

/-- While triggers stay in order and less than 200 ms apart, no pending
timer ever fires: the run just tracks the latest viewport and keeps one
pending deadline 200 ms past the latest trigger. -/
theorem runTriggers_quiet :
    ∀ (rest : List (Nat × Viewport)) (tv : Nat × Viewport) (s : LeafletMap),
      gapsOk (tv :: rest) = true →
      (∀ d, s._debouncer = some d → tv.1 < d) →
      runTriggers s (tv :: rest) =
        ({ s with
             viewport := (List.getLast (tv :: rest) (List.cons_ne_nil tv rest)).2,
             _debouncer := some ((List.getLast (tv :: rest) (List.cons_ne_nil tv rest)).1 + 200) },
         []) := by
  intro rest
  induction rest with
  | nil =>
      intro tv s hgap hpend
      show (let r1 := stepTrigger s tv
            let r2 := runTriggers r1.1 []
            (r2.1, r1.2 ++ r2.2)) = _
      rw [stepTrigger_nofire s tv hpend]
      rfl
  | cons tv2 rest ih =>
      intro tv s hgap hpend
      have hgap1 : tv.1 < tv2.1 ∧ tv2.1 < tv.1 + 200 := by
        have h2 := hgap
        unfold gapsOk at h2
        simp only [Bool.and_eq_true, decide_eq_true_eq] at h2
        exact ⟨h2.1.1, h2.1.2⟩
      have hgap2 : gapsOk (tv2 :: rest) = true := by
        have h2 := hgap
        unfold gapsOk at h2
        simp only [Bool.and_eq_true] at h2
        exact h2.2
      have hrec := ih tv2 { s with viewport := tv.2, _debouncer := some (tv.1 + 200) }
        hgap2 (by
          intro d hd
          have hd2 : some (tv.1 + 200) = some d := hd
          injection hd2 with hd3
          omega)
      show (let r1 := stepTrigger s tv
            let r2 := runTriggers r1.1 (tv2 :: rest)
            (r2.1, r1.2 ++ r2.2)) = _
      rw [stepTrigger_nofire s tv hpend]
      simp only [hrec]
      rw [List.getLast_cons (List.cons_ne_nil tv2 rest)]
      rfl

/-- C1: the claim says a leaflet/initialize envelope registers a
MapSession so that later map-scoped envelopes for the same mapId are
dispatched to it. In the source the constructed LeafletMap is bound to a
local constant and never appended to this._maps, so after an initialize
for mapId 1 with a well-formed options object (at which the constructor
completes) the registry is unchanged, getMap(1) still yields undefined,
and a following leaflet/map/zoom for mapId 1 is silently dropped. The
final conjunct records that at a payload with no options object the
constructor itself throws at options.options.center instead. -/
theorem c1_initialize_never_registers :
    LeafletMapManager.didReceiveMessage LeafletMapManager.new "leaflet/initialize" dInit =
      ⟨LeafletMapManager.new, [], none⟩ ∧
    LeafletMapManager.getMap
      (LeafletMapManager.didReceiveMessage LeafletMapManager.new "leaflet/initialize" dInit).state 1 = none ∧
    LeafletMapManager.didReceiveMessage
      (LeafletMapManager.didReceiveMessage LeafletMapManager.new "leaflet/initialize" dInit).state
      "leaflet/map/zoom" d1z =
      ⟨LeafletMapManager.new, [], none⟩ ∧
    LeafletMapManager.didReceiveMessage LeafletMapManager.new "leaflet/initialize" d1 =
      ⟨LeafletMapManager.new, [], some JsErr.typeError⟩ :=
  ⟨rfl, rfl, rfl, rfl⟩

/-- C2: the claim describes what processing a leaflet/geojson/flush
envelope does for a registered session. The dispatch branch calls
mapInstance.flushGeoJSON(), but the class defines drawGeoJSON and no
method named flushGeoJSON, so even on a registry that hypothetically
holds a session the flush envelope throws a TypeError and performs no
flush. The remaining conjuncts evaluate drawGeoJSON, the evidently
intended flush body, and show it does behave as the claim describes:
the queue is cleared even when rendering fails, and an empty-queue flush
replaces the previously rendered layer with an empty collection. -/
theorem c2_flush_dispatch_throws :
    LeafletMapManager.didReceiveMessage mgrWithMap "leaflet/geojson/flush" d1 =
      ⟨mgrWithMap, [], some JsErr.typeError⟩ ∧
    ((sessionA.addGeoJSON 1 flatPts "t" "red").drawGeoJSON false).1._queueGeoJSON = [] ∧
    ((sessionA.addGeoJSON 1 flatPts "t" "red").drawGeoJSON false).2 = some JsErr.widgetError ∧
    (sessionB.drawGeoJSON true).1.renderedLayers = [(1, [])] ∧
    (sessionB.drawGeoJSON true).1._lastGeoJSON = some 1 ∧
    (sessionB.drawGeoJSON true).1._queueGeoJSON = [] :=
  ⟨rfl, rfl, rfl, rfl, rfl, rfl⟩

/-- C4: the claim says hovering a rendered zone updates the info panel
with the feature properties and hover-out clears it. In the source both
handlers call this._mapInfo.update, but no statement ever assigns
this._mapInfo (the info control was stored in this._tooltip), so hover
raises the visual emphasis and then throws a TypeError, leaving the
panel untouched, and hover-out likewise throws before clearing it. The
click part of the claim does hold: zoomToFeature emits onDidClickZone
with the map id and the feature zone id. -/
theorem c4_hover_panel_never_updated :
    (sessionB.highlightFeature layerEx).2.2 = some JsErr.typeError ∧
    (sessionB.highlightFeature layerEx).1 = sessionB ∧
    (sessionB.highlightFeature layerEx).1.tooltipPanel = none ∧
    (sessionB.highlightFeature layerEx).2.1.style.weight = some 5 ∧
    (sessionB.highlightFeature layerEx).2.1.inFront = true ∧
    (sessionB.resetHighlight layerEx).2.2 = some JsErr.typeError ∧
    (sessionB.resetHighlight layerEx).1 = sessionB ∧
    sessionB.zoomToFeature layerEx = OutMsg.onDidClickZone 1 "1" :=
  ⟨rfl, rfl, rfl, rfl, rfl, rfl, rfl, rfl⟩

/-- C5: the claim says each marker is rendered with the IconDefinition
installed under the icon id of its input entry when one exists. After
icon/create installs icon 1, updating markers with an entry that carries
icon 1 still creates the marker with an undefined icon: updateMarkers
passes this._markerIcon, which nothing ever assigns, and never consults
the registry or the entry icon id. Moreover getIcon cannot resolve the
stored icon either: the assignment _icons[1] leaves a hole at index 0,
where the find callback reads m.id of undefined and throws a TypeError
(and a stored L.icon value carries no id property to compare). -/
theorem c5_marker_icons_never_resolved :
    (LeafletMapManager.didReceiveMessage LeafletMapManager.new "leaflet/icon/create" dIcon).state._icons =
      [none, some (LIcon.create iconOpts)] ∧
    LeafletMapManager.getIcon
      (LeafletMapManager.didReceiveMessage LeafletMapManager.new "leaflet/icon/create" dIcon).state 1 =
      Except.error JsErr.typeError ∧
    ((LeafletMap.new 7 vp0).updateMarkers [mi2]).renderedMarkers =
      [⟨0, 30, 40, "second", none⟩] :=
  ⟨rfl, rfl, rfl⟩

/-- C6: a queued feature whose points value starts with a single
coordinate pair is emitted as a Polygon, one whose points value starts
with a sequence of coordinate pairs is emitted as a MultiPolygon; and
the two concrete add-then-flush examples of the claim produce exactly a
Polygon feature and a MultiPolygon feature respectively. -/
theorem c6_shape_classification (a b : Int) (rest inner irest : List JsVal)
    (zid zid2 : Int) (tip col : String) :
    (LeafletMap.mkFeature
      ⟨JsVal.arr (JsVal.arr [JsVal.num a, JsVal.num b] :: rest), zid, tip, col⟩).geometryType =
      "Polygon" ∧
    (LeafletMap.mkFeature
      ⟨JsVal.arr (JsVal.arr (JsVal.arr inner :: irest) :: rest), zid2, tip, col⟩).geometryType =
      "MultiPolygon" ∧
    ((((LeafletMap.new 10 vp0).addGeoJSON 1 flatPts "t" "red").drawGeoJSON true).1.renderedLayers.map
      (fun p => p.2.map GeoFeature.geometryType)) = [["Polygon"]] ∧
    ((((LeafletMap.new 11 vp0).addGeoJSON 2 nestedPts "t" "red").drawGeoJSON true).1.renderedLayers.map
      (fun p => p.2.map GeoFeature.geometryType)) = [["MultiPolygon"]] :=
  ⟨rfl, rfl, rfl, rfl⟩

/-- C8: the claim says a malformed input to the coordinate conversion is
reported as a fatal error and processing does not continue to a result
derived from it. The source reports the error and then falls through:
there is no return or throw after RPGM.newJavascriptError, so
jsonToLatLng still returns L.latLng(obj.lat, obj.lng) built from the
malformed fields. The well-formed half of the claim does hold. -/
theorem c8_conversion_reports_then_returns :
    jsonToLatLng (JsVal.obj [("lat", JsVal.str "x"), ("lng", JsVal.num 0)]) =
      ⟨true, some ⟨JsVal.str "x", JsVal.num 0⟩⟩ ∧
    jsonToLatLng (JsVal.obj [("lng", JsVal.num 0)]) =
      ⟨true, some ⟨JsVal.undefined, JsVal.num 0⟩⟩ ∧
    jsonToLatLng (JsVal.obj [("lat", JsVal.num 5), ("lng", JsVal.num 6)]) =
      ⟨false, some ⟨JsVal.num 5, JsVal.num 6⟩⟩ :=
  ⟨rfl, rfl, rfl⟩

/-- After updateMarkers on a session whose rendered markers are exactly
its owned markers, the rendered collection is exactly the freshly
created markers. -/
theorem updateMarkers_rendered (s : LeafletMap) (ms : List MarkerInput)
    (hinv : s.renderedMarkers = s._markers) :
    (s.updateMarkers ms).renderedMarkers =
      mkMarkers s._markerIcon s._markerCounter ms := by
  have hrem : List.foldl removeMarker s.renderedMarkers s._markers = [] := by
    apply foldl_removeMarker_nil
    intro x hx
    rw [hinv] at hx
    exact ⟨x, hx, rfl⟩
  unfold LeafletMap.updateMarkers
  dsimp only
  rw [hrem]
  rfl

/-- C7: marker replacement reconciles wholesale. Under the session
invariants that the rendered markers are exactly the owned markers and
that every owned marker was created below the current widget counter,
updateMarkers leaves exactly one freshly created marker per input entry
rendered, removes every previously rendered marker, and a following
replacement with the empty sequence leaves zero rendered markers. -/
theorem c7_marker_replacement (s : LeafletMap) (ms : List MarkerInput)
    (hinv : s.renderedMarkers = s._markers)
    (hctr : ∀ m ∈ s._markers, m.tok < s._markerCounter) :
    (s.updateMarkers ms).renderedMarkers =
      mkMarkers s._markerIcon s._markerCounter ms ∧
    (s.updateMarkers ms).renderedMarkers.length = ms.length ∧
    (∀ m ∈ s._markers, m ∉ (s.updateMarkers ms).renderedMarkers) ∧
    ((s.updateMarkers ms).updateMarkers []).renderedMarkers = [] := by
  have hmain := updateMarkers_rendered s ms hinv
  refine ⟨hmain, ?_, ?_, ?_⟩
  · rw [hmain, mkMarkers_length]
  · intro m hm hmem
    rw [hmain] at hmem
    have hge := mkMarkers_tok_ge s._markerIcon ms s._markerCounter m hmem
    have hlt := hctr m hm
    omega
  · have hinv2 : (s.updateMarkers ms).renderedMarkers = (s.updateMarkers ms)._markers := by
      rw [hmain]; rfl
    exact updateMarkers_rendered (s.updateMarkers ms) [] hinv2

/-- Witness for C7 at a concrete session: replacing with two markers and
then with the empty sequence leaves zero rendered markers. -/
theorem c7_marker_replacement_witness :
    ((sessionA.updateMarkers [mi1, mi2]).updateMarkers []).renderedMarkers = [] :=
  (c7_marker_replacement sessionA [mi1, mi2] rfl
    (by intro m hm; exact absurd hm (List.not_mem_nil m))).2.2.2

/-- C3: debounce coalescing. Starting from a session with no pending
timer, for any nonempty sequence of view-change triggers in increasing
time order spaced less than 200 ms apart, followed by quiescence until
200 ms after the final trigger, exactly one onDidChangeView is emitted,
its reported bounds and zoom are read from the viewport as of the final
trigger, and no firing remains outstanding. -/
theorem c3_debounce_coalesces (s0 : LeafletMap) (ts : List (Nat × Viewport))
    (t : Nat) (h0 : s0._debouncer = none) (hne : ts ≠ [])
    (hgap : gapsOk ts = true) (ht : (ts.getLast hne).1 + 200 ≤ t) :
    (viewSequence s0 ts t).2 =
      [OutMsg.onDidChangeView s0._id
        (ts.getLast hne).2.northLat (ts.getLast hne).2.eastLng
        (ts.getLast hne).2.southLat (ts.getLast hne).2.westLng
        (ts.getLast hne).2.zoomLevel] ∧
    (viewSequence s0 ts t).1._debouncer = none := by
  cases ts with
  | nil => exact absurd rfl hne
  | cons tv rest =>
      have hrun := runTriggers_quiet rest tv s0 hgap
        (by intro d hd; rw [h0] at hd; cases hd)
      have hv : viewSequence s0 (tv :: rest) t =
          ({ s0 with
               viewport := ((tv :: rest).getLast (List.cons_ne_nil tv rest)).2,
               _debouncer := none },
           [OutMsg.onDidChangeView s0._id
             ((tv :: rest).getLast (List.cons_ne_nil tv rest)).2.northLat
             ((tv :: rest).getLast (List.cons_ne_nil tv rest)).2.eastLng
             ((tv :: rest).getLast (List.cons_ne_nil tv rest)).2.southLat
             ((tv :: rest).getLast (List.cons_ne_nil tv rest)).2.westLng
             ((tv :: rest).getLast (List.cons_ne_nil tv rest)).2.zoomLevel]) := by
        unfold viewSequence
        rw [hrun]
        dsimp only
        unfold settleAt
        dsimp only
        rw [if_pos ht]
        rfl
      exact ⟨by rw [hv], by rw [hv]⟩

/-- Witness for C3: three triggers 100 ms and 99 ms apart produce one
onDidChangeView reporting the third viewport. -/
theorem c3_debounce_coalesces_witness :
    (viewSequence sessionA [(0, vpA), (100, vpB), (199, vpC)] 399).2 =
      [OutMsg.onDidChangeView 1 9 10 11 12 13] :=
  (c3_debounce_coalesces sessionA [(0, vpA), (100, vpB), (199, vpC)] 399 rfl
    (List.cons_ne_nil _ _) (by decide) (by decide)).1

/-- C9: an envelope whose tag the handler does not test for, or a
map-scoped envelope whose mapId has no registered session, leaves the
registry and every session unchanged, emits no outbound message and
throws nothing. -/
theorem c9_unknown_or_unregistered_dropped (mgr : LeafletMapManager)
    (message : String) (d : MsgData)
    (h : message ∉ knownTags ∨
         (message ∈ mapScopedTags ∧ LeafletMapManager.getMap mgr d.mapId = none)) :
    LeafletMapManager.didReceiveMessage mgr message d = ⟨mgr, [], none⟩ := by
  rcases h with h | ⟨hmem, hnone⟩
  · have h1 : message ≠ "leaflet/enterStep" := fun e => h (by rw [e]; decide)
    have h2 : message ≠ "leaflet/icon/create" := fun e => h (by rw [e]; decide)
    have h3 : message ≠ "leaflet/initialize" := fun e => h (by rw [e]; decide)
    have h4 : message ≠ "leaflet/map/view" := fun e => h (by rw [e]; decide)
    have h5 : message ≠ "leaflet/map/zoom" := fun e => h (by rw [e]; decide)
    have h6 : message ≠ "leaflet/map/fit" := fun e => h (by rw [e]; decide)
    have h7 : message ≠ "leaflet/markers/update" := fun e => h (by rw [e]; decide)
    have h8 : message ≠ "leaflet/legend/update" := fun e => h (by rw [e]; decide)
    have h9 : message ≠ "leaflet/geojson/add" := fun e => h (by rw [e]; decide)
    have h10 : message ≠ "leaflet/geojson/flush" := fun e => h (by rw [e]; decide)
    have h11 : message ≠ "leaflet/loading/show" := fun e => h (by rw [e]; decide)
    have h12 : message ≠ "leaflet/loading/false" := fun e => h (by rw [e]; decide)
    unfold LeafletMapManager.didReceiveMessage
    rw [if_neg (fun hc => h1 hc.1), if_neg h2, if_neg h3]
    cases hg : LeafletMapManager.getMap mgr d.mapId with
    | none => rfl
    | some m =>
        rw [if_neg h4, if_neg h5, if_neg h6, if_neg h7, if_neg h8, if_neg h9,
          if_neg h10, if_neg h11, if_neg h12]
  · have h1 : message ≠ "leaflet/enterStep" := by
      intro e; rw [e] at hmem; exact absurd hmem (by decide)
    have h2 : message ≠ "leaflet/icon/create" := by
      intro e; rw [e] at hmem; exact absurd hmem (by decide)
    have h3 : message ≠ "leaflet/initialize" := by
      intro e; rw [e] at hmem; exact absurd hmem (by decide)
    unfold LeafletMapManager.didReceiveMessage
    rw [if_neg (fun hc => h1 hc.1), if_neg h2, if_neg h3, hnone]

/-- Witness for C9: an unrecognized tag on the fresh registry is a
complete no-op. -/
theorem c9_unknown_or_unregistered_dropped_witness :
    LeafletMapManager.didReceiveMessage LeafletMapManager.new "leaflet/bogus" MsgData.empty =
      ⟨LeafletMapManager.new, [], none⟩ :=
  c9_unknown_or_unregistered_dropped LeafletMapManager.new "leaflet/bogus" MsgData.empty
    (Or.inl (by decide))

/-- C10: the loading toggle envelopes, dispatched to a registered
session, call loadingShow and loadingHide, whose bodies are empty: the
whole registry state, hence every component of the session state, is
unchanged, no outbound message is emitted and nothing is thrown. -/
theorem c10_loading_noop (mgr : LeafletMapManager) (d : MsgData)
    (m : LeafletMap) (hm : LeafletMapManager.getMap mgr d.mapId = some m) :
    LeafletMapManager.didReceiveMessage mgr "leaflet/loading/show" d =
      ⟨mgr, [], none⟩ ∧
    LeafletMapManager.didReceiveMessage mgr "leaflet/loading/false" d =
      ⟨mgr, [], none⟩ := by
  have hshow : updateFirstMap mgr._maps d.mapId LeafletMap.loadingShow = mgr._maps :=
    updateFirstMap_of_fixed LeafletMap.loadingShow (fun s => rfl) mgr._maps d.mapId
  have hhide : updateFirstMap mgr._maps d.mapId LeafletMap.loadingHide = mgr._maps :=
    updateFirstMap_of_fixed LeafletMap.loadingHide (fun s => rfl) mgr._maps d.mapId
  constructor
  · unfold LeafletMapManager.didReceiveMessage
    rw [if_neg (fun hc => absurd hc.1 (by decide)), if_neg (by decide),
      if_neg (by decide), hm]
    rw [if_neg (by decide), if_neg (by decide), if_neg (by decide),
      if_neg (by decide), if_neg (by decide), if_neg (by decide),
      if_neg (by decide), if_pos rfl, hshow]
  · unfold LeafletMapManager.didReceiveMessage
    rw [if_neg (fun hc => absurd hc.1 (by decide)), if_neg (by decide),
      if_neg (by decide), hm]
    rw [if_neg (by decide), if_neg (by decide), if_neg (by decide),
      if_neg (by decide), if_neg (by decide), if_neg (by decide),
      if_neg (by decide), if_neg (by decide), if_pos rfl, hhide]

/-- Witness for C10 on a registry that holds one session. -/
theorem c10_loading_noop_witness :
    LeafletMapManager.didReceiveMessage mgrWithMap "leaflet/loading/show" d1 =
      ⟨mgrWithMap, [], none⟩ ∧
    LeafletMapManager.didReceiveMessage mgrWithMap "leaflet/loading/false" d1 =
      ⟨mgrWithMap, [], none⟩ :=
  c10_loading_noop mgrWithMap d1 sessionA rfl
